import Mathlib

/-!
Verification development for the birds-demo hotel/POS administration system.

The persistence layer (`src/server/db.ts`, present in two revisions), the
reservation router and the invoice router are shallowly embedded below.
Databases are association lists of records, Prisma operations are explicit
state-passing functions, and thrown errors are an explicit error result that
carries the state at the time of the throw (there are no transactions around
the hooks, so writes preceding a throw persist).

Modelling conventions:
* `Decimal(10,2)` monetary values are modelled as integers (whole currency
  units).  Every operation the code performs on them — `Decimal.add`,
  aggregate `_sum`, a `toString`/`parseFloat` round-trip, multiplication by a
  day count — is exact on integer values, so nothing is abstracted away on the
  states this model can represent.
* `DateTime` values are modelled as whole days, which makes
  `dayjs(..).startOf("day")` the identity and `diff(.., "day")` a subtraction.
* Fresh `cuid()` record ids are passed as explicit parameters.
-/

namespace BirdsDemo

/-! ## JavaScript string/number primitives

`n.toString()`, `String.prototype.padStart(6, "0")` and `parseInt(s, 10)` as
used for invoice numbers, plus the lexicographic (byte-order) string
comparison the database collation applies for `orderBy: { invoiceNumber: "desc" }`.
A JavaScript number that may be `NaN` is modelled as `Option Nat`. -/

/-- Character for a single decimal digit (codepoint `48 + d`). -/
def digitChar (d : Nat) : Char := Char.ofNat (48 + d)

/-- Decimal digits of a natural number, most significant first.  Fuel-indexed
recursion on division by 10; any `fuel ≥ n` gives the digits of `n`. -/
def natDigitsAux : Nat → Nat → List Char
  | 0, _ => []
  | fuel + 1, n => if n = 0 then [] else natDigitsAux fuel (n / 10) ++ [digitChar (n % 10)]

/-- JavaScript `n.toString()` for a non-negative integer. -/
def natToString (n : Nat) : String :=
  if n = 0 then "0" else String.mk (natDigitsAux n n)

/-- JavaScript `s.padStart(6, "0")`. -/
def padStart6 (s : String) : String :=
  String.mk (List.replicate (6 - s.data.length) '0' ++ s.data)

/-- JavaScript `n.toString().padStart(6, "0")`: the zero-padded rendering used for
invoice numbers. -/
def pad6 (n : Nat) : String := padStart6 (natToString n)

/-- Is a character a decimal digit. -/
def isDigitChar (c : Char) : Bool := 48 ≤ c.toNat && c.toNat ≤ 57

/-- Numeric value of a digit character. -/
def dval (c : Char) : Nat := c.toNat - 48

/-- JavaScript `parseInt(s, 10)`: parse the longest leading run of decimal
digits; `none` models the `NaN` result when that run is empty.  (Signs and
whitespace never occur in the strings this system stores.) -/
def parseInt10 (s : String) : Option Nat :=
  let ds := s.data.takeWhile isDigitChar
  if ds.isEmpty then none
  else some (ds.foldl (fun a c => a * 10 + dval c) 0)

/-- JavaScript `x + 1` on a number that may be `NaN`. -/
def jsAdd1 : Option Nat → Option Nat := Option.map (· + 1)

/-- JavaScript `x.toString()` on a number that may be `NaN`. -/
def jsNumToString : Option Nat → String
  | none => "NaN"
  | some n => natToString n

/-- Lexicographic comparison on character lists by codepoint. -/
def lexLtb : List Char → List Char → Bool
  | [], [] => false
  | [], _ :: _ => true
  | _ :: _, [] => false
  | c :: cs, d :: ds =>
    if c.toNat < d.toNat then true
    else if d.toNat < c.toNat then false
    else lexLtb cs ds

/-- Lexicographic (byte-order) comparison on strings: the collation the
database uses when ordering the `invoiceNumber` column. -/
def strLtb (s t : String) : Bool := lexLtb s.data t.data

/-! ## Data model

From `prisma/schema.prisma`, restricted to the fields the verified code
touches.  The routers also reference `ReservationStatus.FINAL_BILL` and
`Room.dailyRateUSD`, which postdate the committed schema file; the code is
taken as the authority and both are included. -/

inductive PaymentStatus
  | PAID | UNPAID | CANCELLED
deriving DecidableEq, Repr

inductive OrderStatus
  | PAID | UNPAID | CANCELLED
deriving DecidableEq, Repr

inductive ReservationStatus
  | CONFIRMED | CHECKED_IN | CHECKED_OUT | FINAL_BILL | CANCELLED
deriving DecidableEq, Repr

inductive RoomStatus
  | OCCUPIED | VACANT | MAINTENANCE
deriving DecidableEq, Repr

structure Room where
  id : String
  status : RoomStatus := .VACANT
  dailyRateUSD : Option Int := none
deriving DecidableEq, Repr

structure Guest where
  id : String
  firstName : String := ""
  surname : String := ""
  fullName : String := ""
  email : String
  currentReservationId : Option String := none
deriving DecidableEq, Repr

structure ReservationItem where
  id : String
deriving DecidableEq, Repr

structure Reservation where
  id : String
  reservationItemId : Option String := none
  guestId : Option String := none
  roomId : Option String := none
  checkIn : Int := 0
  checkOut : Int := 0
  status : ReservationStatus := .CONFIRMED
  firstName : String := ""
  surname : String := ""
  email : String := ""
  subTotalUSD : Int := 0
  paymentStatus : PaymentStatus := .UNPAID
  invoiceId : Option String := none
deriving DecidableEq, Repr

structure Order where
  id : String
  invoiceId : Option String := none
  status : OrderStatus := .UNPAID
  subTotalUSD : Int := 0
  createdDate : Int := 0
deriving DecidableEq, Repr

structure Invoice where
  id : String
  invoiceNumber : String := ""
  totalUSD : Option Int := none
  remainingBalanceUSD : Option Int := none
  customerName : String := ""
  customerEmail : String := ""
  guestId : Option String := none
  status : PaymentStatus := .UNPAID
deriving DecidableEq, Repr

structure DB where
  rooms : List Room := []
  guests : List Guest := []
  reservationItems : List ReservationItem := []
  reservations : List Reservation := []
  orders : List Order := []
  invoices : List Invoice := []
deriving DecidableEq, Repr

/-! ## Errors and operation results -/

inductive TRPCCode
  | NOT_FOUND | CONFLICT | UNPROCESSABLE_CONTENT | INTERNAL_SERVER_ERROR
deriving DecidableEq, Repr

inductive AppError where
  /-- A plain `throw new Error(msg)`. -/
  | jsError (msg : String)
  /-- Prisma P2025: an `update`/`connect` target record does not exist. -/
  | recordNotFound
  /-- Prisma P2002: a unique-constraint violation. -/
  | uniqueViolation
  /-- A `TRPCError` with its code and message. -/
  | trpc (code : TRPCCode) (msg : String)
deriving DecidableEq, Repr

/-- Result of a persistence operation: the value or the thrown error, together
with the database after every write that happened before returning/throwing. -/
inductive ExecResult (α : Type) where
  | ok (a : α) (db : DB)
  | err (e : AppError) (db : DB)
deriving DecidableEq, Repr

/-! ## Query building blocks -/

/-- SQL `SUM` over the selected rows: `null` (`none`) when no row matches. -/
def aggregateSum (xs : List Int) : Option Int :=
  if xs.isEmpty then none else some (xs.foldl (· + ·) 0)

/-- Keep whichever of an accumulated row and a new row has the larger
`invoiceNumber`. -/
def laterInvoice (acc : Option Invoice) (i : Invoice) : Option Invoice :=
  match acc with
  | none => some i
  | some j => if strLtb j.invoiceNumber i.invoiceNumber then some i else some j

/-- Prisma `findFirst` with `orderBy: { invoiceNumber: "desc" }` over a set of invoice
rows: a row whose `invoiceNumber` is maximal in the collation order. -/
def latestByInvoiceNumber (l : List Invoice) : Option Invoice :=
  l.foldl laterInvoice none

/-! ## Invoice reconciliation (`src/server/db.ts`)

The file holds two revisions of the module.  The current revision (lines
284–563) is embedded at top level; the superseded first revision (lines 1–283)
differs only in `updateInvoiceTotal` and is embedded under `Rev1`. -/

/-- Aggregate `_sum.subTotalUSD` over reservations with this `invoiceId` and
`paymentStatus: "UNPAID"`. -/
def aggOutstandingReservations (db : DB) (invoiceId : String) : Option Int :=
  aggregateSum ((db.reservations.filter
    (fun r => r.invoiceId == some invoiceId && r.paymentStatus == .UNPAID)).map (·.subTotalUSD))

/-- Aggregate `_sum.subTotalUSD` over orders with this `invoiceId` and
`status: "UNPAID"`. -/
def aggOutstandingOrders (db : DB) (invoiceId : String) : Option Int :=
  aggregateSum ((db.orders.filter
    (fun o => o.invoiceId == some invoiceId && o.status == .UNPAID)).map (·.subTotalUSD))

/-- Aggregate `_sum.subTotalUSD` over reservations with this `invoiceId` and
`paymentStatus: { not: "CANCELLED" }`. -/
def aggTotalReservations (db : DB) (invoiceId : String) : Option Int :=
  aggregateSum ((db.reservations.filter
    (fun r => r.invoiceId == some invoiceId && !(r.paymentStatus == .CANCELLED))).map (·.subTotalUSD))

/-- Aggregate `_sum.subTotalUSD` over orders with this `invoiceId` and
`status: { not: "CANCELLED" }`. -/
def aggTotalOrders (db : DB) (invoiceId : String) : Option Int :=
  aggregateSum ((db.orders.filter
    (fun o => o.invoiceId == some invoiceId && !(o.status == .CANCELLED))).map (·.subTotalUSD))

/-- The guarded add `if (agg._sum?.subTotalUSD) acc = acc.add(..)`: add
an aggregate to an accumulator when it is present (a `Decimal` 0 is an object
and truthy in JavaScript, so the guard only tests for `null`). -/
def decimalAddOpt (acc : Int) (x : Option Int) : Int :=
  match x with
  | some v => acc + v
  | none => acc

/-- Prisma `invoice.update({ where: { id }, data })` restricted to the totals
columns: P2025 (`none`) when no invoice has this id. -/
def updateInvoiceRecord (db : DB) (invoiceId : String) (f : Invoice → Invoice) : Option DB :=
  if (db.invoices.find? (fun i => i.id == invoiceId)).isSome then
    some { db with invoices := db.invoices.map (fun i => if i.id == invoiceId then f i else i) }
  else none

/-- Function `updateInvoiceTotal` from the current revision of `src/server/db.ts`
(lines 451–540).  `newBalance` and `newTotal` start at `Decimal(0)` and each
present (non-`null`) aggregate is added — an absent aggregate contributes
nothing.  The body is wrapped in `try`/`catch`; the only fallible step on this
model is the final `invoice.update`, whose failure is re-thrown as a TRPC
`INTERNAL_SERVER_ERROR`.  (A `Decimal` value of 0 is an object and therefore
truthy in JavaScript, so the `if (agg._sum?.subTotalUSD)` guards test only for
`null`, i.e. for an absent aggregate.) -/
def updateInvoiceTotal (db : DB) (invoiceId : String) : ExecResult Unit :=
  let newBalance : Int :=
    decimalAddOpt (decimalAddOpt 0 (aggOutstandingReservations db invoiceId))
      (aggOutstandingOrders db invoiceId)
  let newTotal : Int :=
    decimalAddOpt (decimalAddOpt 0 (aggTotalReservations db invoiceId))
      (aggTotalOrders db invoiceId)
  match updateInvoiceRecord db invoiceId
      (fun i => { i with totalUSD := some newTotal, remainingBalanceUSD := some newBalance }) with
  | some db2 => .ok () db2
  | none => .err (.trpc .INTERNAL_SERVER_ERROR "Error updating invoice total.") db

namespace Rev1

/-- Function `updateInvoiceTotal` from the first revision of `src/server/db.ts`
(lines 146–260).  All four aggregates filter on `UNPAID` (lines 149–187); when
the two aggregates of a step are both absent it throws
`Error("failed to aggregate totals")`; there is no `try`/`catch`, so the final
update's P2025 would surface directly.  An `undefined` total (unreachable
after the guards) would leave the corresponding column untouched. -/
def updateInvoiceTotal (db : DB) (invoiceId : String) : ExecResult Unit :=
  let aggregatedOutstandingReservations := aggOutstandingReservations db invoiceId
  let aggregatedOutstandingOrders := aggOutstandingOrders db invoiceId
  let aggregatedReservations := aggOutstandingReservations db invoiceId
  let aggregatedOrders := aggOutstandingOrders db invoiceId
  if aggregatedOrders.isNone && aggregatedReservations.isNone then
    .err (.jsError "failed to aggregate totals") db
  else
    let newTotal : Option Int :=
      match aggregatedReservations, aggregatedOrders with
      | some r, some o => some (r + o)
      | some r, none => some r
      | none, some o => some o
      | none, none => none
    if aggregatedOutstandingOrders.isNone && aggregatedOutstandingReservations.isNone then
      .err (.jsError "failed to aggregate totals") db
    else
      let newRemainingBalance : Option Int :=
        match aggregatedOutstandingReservations, aggregatedOutstandingOrders with
        | some r, some o => some (r + o)
        | some r, none => some r
        | none, some o => some o
        | none, none => none
      match updateInvoiceRecord db invoiceId
          (fun i => { i with
            totalUSD := (match newTotal with | some v => some v | none => i.totalUSD),
            remainingBalanceUSD :=
              (match newRemainingBalance with | some v => some v | none => i.remainingBalanceUSD) }) with
      | some db2 => .ok () db2
      | none => .err .recordNotFound db

end Rev1

/-- Function `generateCancelledInvoiceNumber` (db.ts 542–561): latest invoice with
`status: "CANCELLED"` by descending number, incremented; 9000 when none
exists; zero-padded to 6 digits. -/
def generateCancelledInvoiceNumber (db : DB) : String :=
  match latestByInvoiceNumber (db.invoices.filter (fun i => i.status == .CANCELLED)) with
  | some latestCancelled =>
    padStart6 (jsNumToString (jsAdd1 (parseInt10 latestCancelled.invoiceNumber)))
  | none => padStart6 (jsNumToString (some 9000))

/-! ## The extended client (`xprisma`) hooks, current revision (db.ts 305–449) -/

structure ReservationCreateData where
  id : String
  reservationItemId : Option String := none
  guestId : Option String := none
  roomId : Option String := none
  checkIn : Int := 0
  checkOut : Int := 0
  subTotalUSD : Int := 0
  paymentStatus : PaymentStatus := .UNPAID
  status : ReservationStatus := .CONFIRMED
  invoiceId : Option String := none
deriving DecidableEq, Repr

/-- Prisma `reservation.create`. -/
def prismaReservationCreate (db : DB) (d : ReservationCreateData) : DB × Reservation :=
  let r : Reservation :=
    { id := d.id, reservationItemId := d.reservationItemId, guestId := d.guestId,
      roomId := d.roomId, checkIn := d.checkIn, checkOut := d.checkOut,
      status := d.status, subTotalUSD := d.subTotalUSD,
      paymentStatus := d.paymentStatus, invoiceId := d.invoiceId }
  ({ db with reservations := db.reservations ++ [r] }, r)

/-- xprisma `reservation.create` hook (db.ts 308–319): create, then recompute
the linked invoice's totals when the new record carries an invoice id. -/
def xReservationCreate (db : DB) (d : ReservationCreateData) : ExecResult Reservation :=
  let (db1, reservation) := prismaReservationCreate db d
  match reservation.invoiceId with
  | some invId =>
    match updateInvoiceTotal db1 invId with
    | .ok _ db2 => .ok reservation db2
    | .err e db2 => .err e db2
  | none => .ok reservation db1

/-- The update payload fields the reservation hook inspects or that the claims
exercise.  A present field (`some`) is written; an absent field (`none`) is
`undefined` and leaves the column unchanged. -/
structure ReservationUpdateData where
  paymentStatus : Option PaymentStatus := none
  invoiceId : Option String := none
  subTotalUSD : Option Int := none
  status : Option ReservationStatus := none
deriving DecidableEq, Repr

def applyReservationUpdate (r : Reservation) (d : ReservationUpdateData) : Reservation :=
  { r with
    paymentStatus := d.paymentStatus.getD r.paymentStatus,
    invoiceId := (match d.invoiceId with | some v => some v | none => r.invoiceId),
    subTotalUSD := d.subTotalUSD.getD r.subTotalUSD,
    status := d.status.getD r.status }

/-- xprisma `reservation.update` hook (db.ts 320–379).  `currentReservation`
(only its `invoiceId`) is read before the update; the update runs; then, when
the payload carries a `paymentStatus`, the record is re-read — after the
update — as `previousReservation` and the invoice totals are recomputed only
when its stored status differs from the payload's.  When the payload carries
an `invoiceId` differing from the pre-update one, both the previous and the
new invoice totals are recomputed. -/
def xReservationUpdate (db : DB) (whereId : String) (data : ReservationUpdateData) :
    ExecResult Reservation :=
  let currentReservation : Option (Option String) :=
    (db.reservations.find? (fun r => r.id == whereId)).map (·.invoiceId)
  match db.reservations.find? (fun r => r.id == whereId) with
  | none => .err .recordNotFound db
  | some r0 =>
    let updatedReservation := applyReservationUpdate r0 data
    let db1 := { db with reservations :=
      db.reservations.map (fun r => if r.id == whereId then applyReservationUpdate r data else r) }
    let step2 : ExecResult Unit :=
      match data.paymentStatus with
      | none => .ok () db1
      | some paymentStatus =>
        match db1.reservations.find? (fun r => r.id == whereId) with
        | none => .ok () db1
        | some previousReservation =>
          if previousReservation.paymentStatus ≠ paymentStatus then
            match previousReservation.invoiceId with
            | some invoiceId => updateInvoiceTotal db1 invoiceId
            | none => .ok () db1
          else .ok () db1
    match step2 with
    | .err e db2 => .err e db2
    | .ok _ db2 =>
      match data.invoiceId, currentReservation with
      | some newInvoiceId, some curInvoiceId =>
        if curInvoiceId ≠ some newInvoiceId then
          let step3 : ExecResult Unit :=
            match curInvoiceId with
            | some previousInvoiceId => updateInvoiceTotal db2 previousInvoiceId
            | none => .ok () db2
          match step3 with
          | .err e db3 => .err e db3
          | .ok _ db3 =>
            match updateInvoiceTotal db3 newInvoiceId with
            | .ok _ db4 => .ok updatedReservation db4
            | .err e db4 => .err e db4
        else .ok updatedReservation db2
      | _, _ => .ok updatedReservation db2

/-- A nested `reservations: { createMany: { data: [...] } }` payload entry of
an invoice creation. -/
structure NestedReservationCreate where
  id : String
  reservationItemId : Option String := none
  guestId : Option String := none
  checkIn : Int := 0
  checkOut : Int := 0
  subTotalUSD : Int := 0
  status : ReservationStatus := .CONFIRMED
  firstName : String := ""
  surname : String := ""
  email : String := ""
deriving DecidableEq, Repr

structure InvoiceCreateData where
  id : String
  invoiceNumber : String
  customerName : String := ""
  customerEmail : String := ""
  guestConnectId : Option String := none
  reservationConnectId : Option String := none
  reservationsCreateMany : List NestedReservationCreate := []
deriving DecidableEq, Repr

/-- Prisma `invoice.create`: P2025 when a `connect` target is missing;
otherwise inserts the invoice, inserts the nested `createMany` reservations
with their `invoiceId` set, and points a `reservation: { connect: .. }` target
at the new invoice. -/
def prismaInvoiceCreate (db : DB) (d : InvoiceCreateData) : ExecResult Invoice :=
  let guestOk := match d.guestConnectId with
    | some gid => (db.guests.find? (fun g => g.id == gid)).isSome
    | none => true
  let resOk := match d.reservationConnectId with
    | some rid => (db.reservations.find? (fun r => r.id == rid)).isSome
    | none => true
  if guestOk && resOk then
    let inv : Invoice :=
      { id := d.id, invoiceNumber := d.invoiceNumber, customerName := d.customerName,
        customerEmail := d.customerEmail, guestId := d.guestConnectId }
    let nested : List Reservation := d.reservationsCreateMany.map (fun n =>
      { id := n.id, reservationItemId := n.reservationItemId, guestId := n.guestId,
        checkIn := n.checkIn, checkOut := n.checkOut, status := n.status,
        firstName := n.firstName, surname := n.surname, email := n.email,
        subTotalUSD := n.subTotalUSD, invoiceId := some d.id })
    let connected := match d.reservationConnectId with
      | some rid =>
        db.reservations.map (fun r => if r.id == rid then { r with invoiceId := some d.id } else r)
      | none => db.reservations
    .ok inv { db with invoices := db.invoices ++ [inv], reservations := connected ++ nested }
  else .err .recordNotFound db

/-- xprisma `invoice.create` hook (db.ts 382–390): create, then recompute the
new invoice's totals. -/
def xInvoiceCreate (db : DB) (d : InvoiceCreateData) : ExecResult Invoice :=
  match prismaInvoiceCreate db d with
  | .err e db1 => .err e db1
  | .ok invoice db1 =>
    match updateInvoiceTotal db1 invoice.id with
    | .ok _ db2 => .ok invoice db2
    | .err e db2 => .err e db2

/-- The invoice-update payload shape used by `invoiceRouter.updateStatus`:
a `status`, a nested `orders: { updateMany: { where: { status: "UNPAID" },
data: { status } } }` and a nested
`reservations: { updateMany: { where: { invoiceId }, data: { paymentStatus } } }`. -/
structure InvoiceUpdateData where
  status : Option PaymentStatus := none
  ordersWhereUnpaidSetStatus : Option OrderStatus := none
  reservationsSetPaymentStatus : Option PaymentStatus := none
deriving DecidableEq, Repr

/-- Prisma `invoice.update` with the payload above (P2025 when the id matches
no invoice).  The nested `updateMany`s are scoped to the invoice's relations. -/
def prismaInvoiceUpdate (db : DB) (whereId : String) (data : InvoiceUpdateData) :
    ExecResult Invoice :=
  match db.invoices.find? (fun i => i.id == whereId) with
  | none => .err .recordNotFound db
  | some i0 =>
    let i1 := { i0 with status := data.status.getD i0.status }
    let orders1 := match data.ordersWhereUnpaidSetStatus with
      | some st =>
        db.orders.map (fun o =>
          if o.invoiceId == some whereId && o.status == .UNPAID then { o with status := st } else o)
      | none => db.orders
    let reservations1 := match data.reservationsSetPaymentStatus with
      | some ps =>
        db.reservations.map (fun r =>
          if r.invoiceId == some whereId then { r with paymentStatus := ps } else r)
      | none => db.reservations
    .ok i1 { db with
      invoices := db.invoices.map (fun i => if i.id == whereId then i1 else i),
      orders := orders1, reservations := reservations1 }

/-- Prisma `invoice.update({ where: { id }, data: { invoiceNumber } })`.
`Invoice.invoiceNumber` is declared `@unique` in the schema, so writing a
number that another invoice already holds raises P2002 and stores nothing. -/
def prismaInvoiceSetNumber (db : DB) (whereId : String) (n : String) : ExecResult Invoice :=
  match db.invoices.find? (fun i => i.id == whereId) with
  | none => .err .recordNotFound db
  | some i0 =>
    if db.invoices.any (fun i => !(i.id == whereId) && i.invoiceNumber == n) then
      .err .uniqueViolation db
    else
      let i1 := { i0 with invoiceNumber := n }
      .ok i1 { db with invoices := db.invoices.map (fun i => if i.id == whereId then i1 else i) }

/-- xprisma `invoice.update` hook (db.ts 391–413): when the payload's `status`
is not `"CANCELLED"`, the underlying query is never executed —
`updatedInvoice` stays `undefined` (`none`) and nothing is written.  When it
is `"CANCELLED"`, a cancelled-sequence number is generated from the
pre-update state, the update runs, and a second update replaces the invoice's
number. -/
def xInvoiceUpdate (db : DB) (whereId : String) (data : InvoiceUpdateData) :
    ExecResult (Option Invoice) :=
  match data.status with
  | some .CANCELLED =>
    let newNumber := generateCancelledInvoiceNumber db
    match prismaInvoiceUpdate db whereId data with
    | .err e db1 => .err e db1
    | .ok updatedInvoice db1 =>
      match prismaInvoiceSetNumber db1 updatedInvoice.id newNumber with
      | .err e db2 => .err e db2
      | .ok updatedInvoice2 db2 => .ok (some updatedInvoice2) db2
  | _ => .ok none db

structure OrderCreateData where
  id : String
  invoiceId : Option String := none
  status : OrderStatus := .UNPAID
  subTotalUSD : Int := 0
deriving DecidableEq, Repr

/-- xprisma `order.create` hook (db.ts 416–433): stamps
`createdDate := dayjs(new Date()).startOf("day")` (the identity on this
model's whole-day clock `today`), creates, then recomputes the linked
invoice's totals when an invoice id is present. -/
def xOrderCreate (db : DB) (d : OrderCreateData) (today : Int) : ExecResult Order :=
  let order : Order :=
    { id := d.id, invoiceId := d.invoiceId, status := d.status,
      subTotalUSD := d.subTotalUSD, createdDate := today }
  let db1 := { db with orders := db.orders ++ [order] }
  match order.invoiceId with
  | some invId =>
    match updateInvoiceTotal db1 invId with
    | .ok _ db2 => .ok order db2
    | .err e db2 => .err e db2
  | none => .ok order db1

structure OrderUpdateData where
  status : Option OrderStatus := none
  subTotalUSD : Option Int := none
deriving DecidableEq, Repr

/-- xprisma `order.update` hook (db.ts 434–446): update, then recompute the
invoice totals when the payload carried a `status` and the updated order has
an invoice id. -/
def xOrderUpdate (db : DB) (whereId : String) (data : OrderUpdateData) : ExecResult Order :=
  match db.orders.find? (fun o => o.id == whereId) with
  | none => .err .recordNotFound db
  | some o0 =>
    let updatedOrder :=
      { o0 with status := data.status.getD o0.status,
                subTotalUSD := data.subTotalUSD.getD o0.subTotalUSD }
    let orders1 := db.orders.map (fun o => if o.id == whereId then updatedOrder else o)
    let db1 := { db with orders := orders1 }
    match data.status, updatedOrder.invoiceId with
    | some _, some invId =>
      match updateInvoiceTotal db1 invId with
      | .ok _ db2 => .ok updatedOrder db2
      | .err e db2 => .err e db2
    | _, _ => .ok updatedOrder db1

/-! ## Reservations router (first document of `src/unnamed/part_001`) -/

/-- The invoice-number computation inlined at the head of
`reservationsRouter.checkIn` (lines 225–241): `findFirst` over ALL invoices —
no status filter — by descending number; incremented when found, 2000 when the
store has no invoice at all; zero-padded to 6 digits. -/
def checkInInvoiceNumber (db : DB) : String :=
  match latestByInvoiceNumber db.invoices with
  | some latestInvoice => padStart6 (jsNumToString (jsAdd1 (parseInt10 latestInvoice.invoiceNumber)))
  | none => padStart6 (jsNumToString (some 2000))

structure CheckInInput where
  reservationId : String
  guestName : String := ""
  firstName : String
  checkIn : Int := 0
  checkOut : Int := 0
  surname : String
  guestEmail : String
  roomId : String
deriving DecidableEq, Repr

/-- Procedure `reservationsRouter.checkIn` (lines 209–348).  The reservation update
carries a nested `guest: { create: .. }` (Guest.email is `@unique`, so a
duplicate email is a P2002) and a nested `room: { connect: .., update:
{ status: OCCUPIED } }`; Prisma applies the whole update atomically, so all
its targets are checked before any write.  `durationInDays` and `rateTotal`
are computed but feed only a commented-out block (lines 320–330) and are
omitted.  The `if (!reservation)` and `if (!invoice)` guards are unreachable
because the underlying calls throw rather than return `null`.  The invoice is
created through the PLAIN client (`ctx.prisma`), so no reconciliation hook
runs.  The record returned is the one the update produced, read before the
invoice creation pointed it at the new invoice. -/
def reservationsCheckIn (db : DB) (input : CheckInInput) (newGuestId newInvoiceId : String) :
    ExecResult Reservation :=
  let formattedInvoiceNumber := checkInInvoiceNumber db
  match db.reservations.find? (fun r => r.id == input.reservationId) with
  | none => .err .recordNotFound db
  | some r0 =>
    if db.guests.any (fun g => g.email == input.guestEmail) then .err .uniqueViolation db
    else
      match db.rooms.find? (fun rm => rm.id == input.roomId) with
      | none => .err .recordNotFound db
      | some _ =>
        let newGuest : Guest :=
          { id := newGuestId, email := input.guestEmail, firstName := input.firstName,
            surname := input.surname, currentReservationId := some input.reservationId }
        let reservation :=
          { r0 with status := ReservationStatus.CHECKED_IN, guestId := some newGuestId,
                    roomId := some input.roomId }
        let reservations1 :=
          db.reservations.map (fun r => if r.id == input.reservationId then reservation else r)
        let rooms1 :=
          db.rooms.map (fun rm =>
            if rm.id == input.roomId then { rm with status := RoomStatus.OCCUPIED } else rm)
        let db1 := { db with guests := db.guests ++ [newGuest],
                             reservations := reservations1, rooms := rooms1 }
        match reservation.guestId with
        | none => .err (.trpc .UNPROCESSABLE_CONTENT "Failed to create the Guest rexcord") db1
        | some guestId =>
          match reservation.reservationItemId.bind
              (fun riid => db1.reservationItems.find? (fun ri => ri.id == riid)) with
          | none => .err (.trpc .UNPROCESSABLE_CONTENT "Reservation item not found.") db1
          | some _resItem =>
            match prismaInvoiceCreate db1
                { id := newInvoiceId, invoiceNumber := formattedInvoiceNumber,
                  customerEmail := input.guestEmail, customerName := input.firstName,
                  reservationConnectId := some reservation.id,
                  guestConnectId := some guestId } with
            | .err e db2 => .err e db2
            | .ok _invoice db2 => .ok reservation db2

structure CalculateSubTotalInput where
  reservationId : String
  checkIn : Int
  checkOut : Int
deriving DecidableEq, Repr

/-- Procedure `reservationsRouter.calculateSubTotal` (lines 350–383).
`dayjs(checkOut).diff(checkIn, "day")` is plain subtraction on whole-day
dates.  `dailyRate` is `room?.dailyRateUSD?.toString()`: absent (`undefined`,
falsy) exactly when the reservation has no room or the room has no rate — a
stored rate renders as a non-empty, truthy string even for 0 — and the
`parseFloat` round-trip is the identity on this model's integer amounts. -/
def calculateSubTotal (db : DB) (input : CalculateSubTotalInput) : ExecResult Reservation :=
  let totalDays : Int := input.checkOut - input.checkIn
  match db.reservations.find? (fun r => r.id == input.reservationId) with
  | none => .err (.jsError "Reservation not found") db
  | some reservation =>
    let dailyRate : Option Int :=
      (reservation.roomId.bind (fun rid => db.rooms.find? (fun rm => rm.id == rid))).bind
        (·.dailyRateUSD)
    let subTotal : Int := match dailyRate with | some d => d * totalDays | none => 0
    let updatedReservation :=
      { reservation with subTotalUSD := subTotal, status := ReservationStatus.FINAL_BILL }
    let reservations1 :=
      db.reservations.map (fun r => if r.id == input.reservationId then updatedReservation else r)
    .ok updatedReservation { db with reservations := reservations1 }

/-! ## Invoice router (second document of `src/unnamed/part_001`) -/

/-- One entry of `newInvoiceInputSchema.reservations`. -/
structure ReservationSpec where
  firstName : String := ""
  surname : String := ""
  email : String := ""
  reservationItemId : String := ""
  checkIn : Int := 0
  checkOut : Int := 0
  subTotalUSD : Option Int := none
  status : ReservationStatus := .CONFIRMED
deriving DecidableEq, Repr

structure NewInvoiceInput where
  guestId : Option String := none
  firstName : String
  surname : String
  email : String
  reservations : Option (List ReservationSpec) := none
deriving DecidableEq, Repr

/-- The number generation at the head of `invoiceRouter.create` (lines
539–557): latest invoice with `status: { not: "CANCELLED" }` by descending
number, incremented; 1220 when none; padded at line 611. -/
def nextManualInvoiceNumber (db : DB) : String :=
  match latestByInvoiceNumber (db.invoices.filter (fun i => !(i.status == .CANCELLED))) with
  | some latestInvoice => padStart6 (jsNumToString (jsAdd1 (parseInt10 latestInvoice.invoiceNumber)))
  | none => padStart6 (jsNumToString (some 1220))

/-- Procedure `invoiceRouter.create` (lines 536–630).  The number is read first; the
guest is then created (no `guestId`; duplicate email → P2002 caught as
CONFLICT, any other failure → UNPROCESSABLE) or looked up (`guestId` present;
missing → UNPROCESSABLE); each reservation spec is overridden with the
caller's name/email and the guest's id; finally the invoice and its nested
reservations are created through the EXTENDED client, which recomputes
totals.  Fresh ids for the possible guest, the invoice and the nested
reservations are explicit parameters. -/
def invoiceRouterCreate (db : DB) (input : NewInvoiceInput)
    (newGuestId newInvoiceId : String) (newReservationIds : List String) : ExecResult Invoice :=
  let invoiceNumber : Option Nat :=
    match latestByInvoiceNumber (db.invoices.filter (fun i => !(i.status == .CANCELLED))) with
    | some latestInvoice => jsAdd1 (parseInt10 latestInvoice.invoiceNumber)
    | none => some 1220
  let guestStep : ExecResult Guest :=
    match input.guestId with
    | none =>
      if db.guests.any (fun g => g.email == input.email) then
        .err (.trpc .CONFLICT
          "A Guest account with this Email already exists. Please choose the existing guest and try again.") db
      else
        let guest : Guest :=
          { id := newGuestId, firstName := input.firstName, surname := input.surname,
            fullName := input.firstName ++ " " ++ input.surname, email := input.email }
        .ok guest { db with guests := db.guests ++ [guest] }
    | some gid =>
      match db.guests.find? (fun g => g.id == gid) with
      | none => .err (.trpc .UNPROCESSABLE_CONTENT "Failed to find the guest.") db
      | some guest => .ok guest db
  match guestStep with
  | .err e db1 => .err e db1
  | .ok guest db1 =>
    let reservationData : List NestedReservationCreate :=
      match input.reservations with
      | some rs => (rs.zip newReservationIds).map (fun p =>
          { id := p.2, reservationItemId := some p.1.reservationItemId,
            checkIn := p.1.checkIn, checkOut := p.1.checkOut,
            subTotalUSD := p.1.subTotalUSD.getD 0, status := p.1.status,
            firstName := input.firstName, surname := input.surname, email := input.email,
            guestId := some guest.id })
      | none => []
    let formattedInvoiceNumber := padStart6 (jsNumToString invoiceNumber)
    xInvoiceCreate db1
      { id := newInvoiceId, invoiceNumber := formattedInvoiceNumber,
        reservationsCreateMany := reservationData,
        customerName := input.firstName ++ " " ++ input.surname,
        customerEmail := input.email, guestConnectId := some guest.id }

/-- The `PaymentStatus` value of `updateStatus` lands on the `OrderStatus`
column of the nested orders update (the two enums share their constructors). -/
def orderStatusOfPayment : PaymentStatus → OrderStatus
  | .PAID => .PAID
  | .UNPAID => .UNPAID
  | .CANCELLED => .CANCELLED

/-- Procedure `invoiceRouter.updateStatus` (lines 499–534): a single update through the
EXTENDED client carrying the new status plus nested `updateMany`s over the
invoice's unpaid orders and its reservations. -/
def invoiceRouterUpdateStatus (db : DB) (id : String) (status : PaymentStatus) :
    ExecResult (Option Invoice) :=
  xInvoiceUpdate db id
    { status := some status,
      ordersWhereUnpaidSetStatus := some (orderStatusOfPayment status),
      reservationsSetPaymentStatus := some status }

/-! ## Spec-side definitions

These follow the words of the specification/claims; the theorems below compare
them with the embedded code. -/

/-- Spec-side: sum of `subTotalUSD` over the invoice's reservations and orders
whose status is not CANCELLED. -/
def nonCancelledSubTotalSum (db : DB) (invoiceId : String) : Int :=
  ((db.reservations.filter
      (fun r => r.invoiceId == some invoiceId && !(r.paymentStatus == .CANCELLED))).map
    (·.subTotalUSD)).sum +
  ((db.orders.filter
      (fun o => o.invoiceId == some invoiceId && !(o.status == .CANCELLED))).map
    (·.subTotalUSD)).sum

/-- Spec-side: sum of `subTotalUSD` over the invoice's reservations and orders
whose status is UNPAID. -/
def unpaidSubTotalSum (db : DB) (invoiceId : String) : Int :=
  ((db.reservations.filter
      (fun r => r.invoiceId == some invoiceId && r.paymentStatus == .UNPAID)).map
    (·.subTotalUSD)).sum +
  ((db.orders.filter
      (fun o => o.invoiceId == some invoiceId && o.status == .UNPAID)).map
    (·.subTotalUSD)).sum

/-- Spec-side check-in number generation following the claim's words: the most
recent number WITHIN the normal sequence (status not CANCELLED), base 2000. -/
def checkInInvoiceNumberClaimed (db : DB) : String :=
  match latestByInvoiceNumber (db.invoices.filter (fun i => !(i.status == .CANCELLED))) with
  | some latestInvoice => padStart6 (jsNumToString (jsAdd1 (parseInt10 latestInvoice.invoiceNumber)))
  | none => padStart6 (jsNumToString (some 2000))

/-- The database reached by an operation, whether it returned or threw. -/
def ExecResult.state : ExecResult α → DB
  | .ok _ db => db
  | .err _ db => db

/-- Did the operation return without throwing. -/
def ExecResult.isOk : ExecResult α → Bool
  | .ok _ _ => true
  | .err _ _ => false

/-! ## Facts about the decimal rendering and its ordering -/

theorem isDigitChar_digitChar {d : Nat} (h : d < 10) : isDigitChar (digitChar d) = true := by
  interval_cases d <;> decide

theorem natDigitsAux_eq : ∀ {fuel n : Nat}, n ≤ fuel →
    natDigitsAux fuel n = ((Nat.digits 10 n).map digitChar).reverse
  | 0, n, h => by
    have : n = 0 := Nat.le_zero.mp h
    subst this; simp [natDigitsAux]
  | fuel + 1, n, h => by
    by_cases hn : n = 0
    · subst hn; simp [natDigitsAux]
    · have hlt : n / 10 < n := Nat.div_lt_self (Nat.pos_of_ne_zero hn) (by norm_num)
      have hrec := @natDigitsAux_eq fuel (n / 10) (by omega)
      rw [natDigitsAux, if_neg hn, hrec,
        Nat.digits_def' (by norm_num : (1 : Nat) < 10) (Nat.pos_of_ne_zero hn)]
      simp

theorem natToString_data_eq {n : Nat} (hn : n ≠ 0) :
    (natToString n).data = ((Nat.digits 10 n).map digitChar).reverse := by
  unfold natToString
  rw [if_neg hn]
  exact natDigitsAux_eq le_rfl

theorem natToString_allDigits (n : Nat) : ∀ c ∈ (natToString n).data, isDigitChar c = true := by
  by_cases hn : n = 0
  · subst hn; decide
  · rw [natToString_data_eq hn]
    intro c hc
    rw [List.mem_reverse, List.mem_map] at hc
    obtain ⟨d, hd, rfl⟩ := hc
    exact isDigitChar_digitChar (Nat.digits_lt_base (by norm_num) hd)

theorem natToString_length_le {n : Nat} (h : n < 10 ^ 6) : (natToString n).data.length ≤ 6 := by
  by_cases hn : n = 0
  · subst hn; decide
  · rw [natToString_data_eq hn]
    simp only [List.length_reverse, List.length_map]
    rw [Nat.digits_len 10 n (by norm_num) hn]
    have := Nat.log_lt_of_lt_pow hn h
    omega

theorem pad6_data (n : Nat) :
    (pad6 n).data = List.replicate (6 - (natToString n).data.length) '0' ++ (natToString n).data :=
  rfl

theorem pad6_length {n : Nat} (h : n < 10 ^ 6) : (pad6 n).data.length = 6 := by
  rw [pad6_data]
  have := natToString_length_le h
  simp only [List.length_append, List.length_replicate]
  omega

theorem pad6_allDigits (n : Nat) : ∀ c ∈ (pad6 n).data, isDigitChar c = true := by
  rw [pad6_data]
  intro c hc
  rcases List.mem_append.mp hc with h | h
  · rw [List.eq_of_mem_replicate h]; decide
  · exact natToString_allDigits n c h

theorem lexLtb_irrefl : ∀ l : List Char, lexLtb l l = false
  | [] => rfl
  | c :: cs => by
    rw [lexLtb, if_neg (lt_irrefl _), if_neg (lt_irrefl _)]
    exact lexLtb_irrefl cs

theorem strLtb_irrefl (s : String) : strLtb s s = false := lexLtb_irrefl s.data

theorem foldl_add_eq_sum (xs : List Int) : ∀ acc : Int, xs.foldl (· + ·) acc = acc + xs.sum := by
  induction xs with
  | nil => intro acc; simp
  | cons x t ih => intro acc; simp only [List.foldl_cons, ih, List.sum_cons]; ring

theorem decimalAddOpt_aggregateSum (acc : Int) (xs : List Int) :
    decimalAddOpt acc (aggregateSum xs) = acc + xs.sum := by
  unfold aggregateSum decimalAddOpt
  rcases xs with _ | ⟨x, t⟩
  · simp
  · simp [foldl_add_eq_sum]

theorem aggregateSum_eq_none_iff (xs : List Int) : aggregateSum xs = none ↔ xs = [] := by
  unfold aggregateSum
  rcases xs with _ | ⟨x, t⟩ <;> simp

/-- Behaviour of `find?` after an in-place list update that rewrites exactly the rows the
predicate selects, by a function that does not change how the predicate
evaluates. -/
theorem find?_map_update (l : List α) (p : α → Bool) (f : α → α)
    (hf : ∀ a, p (f a) = p a) :
    (l.map (fun a => if p a then f a else a)).find? p = (l.find? p).map f := by
  induction l with
  | nil => simp
  | cons a t ih =>
    simp only [List.map_cons]
    by_cases hpa : p a = true
    · rw [if_pos hpa, List.find?_cons_of_pos _ (by rw [hf]; exact hpa),
        List.find?_cons_of_pos _ hpa]
      rfl
    · rw [if_neg hpa, List.find?_cons_of_neg _ hpa, List.find?_cons_of_neg _ hpa]
      exact ih

/-- Behaviour of `find?` after replacing every selected row by a fixed row that the
predicate also selects, when a selected row exists. -/
theorem find?_map_const (l : List α) (p : α → Bool) (b : α) (hb : p b = true) :
    ∀ a, l.find? p = some a → (l.map (fun x => if p x then b else x)).find? p = some b := by
  induction l with
  | nil => intro a h; simp at h
  | cons x t ih =>
    intro a h
    simp only [List.map_cons]
    by_cases hpx : p x = true
    · rw [if_pos hpx, List.find?_cons_of_pos _ hb]
    · rw [List.find?_cons_of_neg _ hpx] at h
      rw [if_neg hpx, List.find?_cons_of_neg _ hpx]
      exact ih a h

theorem find?_append_singleton_isSome (l : List α) (x : α) (p : α → Bool) (hx : p x = true) :
    ((l ++ [x]).find? p).isSome = true := by
  rw [List.find?_isSome]
  exact ⟨x, by simp, hx⟩

/-- Variant of `find?_map_const` with the hypotheses in rewrite-friendly order. -/
theorem find?_map_const' (l : List α) (p : α → Bool) (b : α) (a : α)
    (h : l.find? p = some a) (hb : p b = true) :
    (l.map (fun x => if p x then b else x)).find? p = some b :=
  find?_map_const l p b hb a h

/-! ## Claim C1: the balance invariant under extended-client operations

A three-step trace through the extended client: create invoice `"i1"`, create
reservation `"r1"` (sub-total 100, UNPAID) linked to it, then update the
reservation's `paymentStatus` to PAID through the extended client. -/

def c1Trace : ExecResult Reservation :=
  match xInvoiceCreate {} { id := "i1", invoiceNumber := "001220" } with
  | .err e db => .err e db
  | .ok _ db =>
    match xReservationCreate db { id := "r1", invoiceId := some "i1", subTotalUSD := 100 } with
    | .err e db1 => .err e db1
    | .ok _ db1 => xReservationUpdate db1 "r1" { paymentStatus := some .PAID }

/-- C1: the invariant "after any sequence of create/update operations through
the extended client, `remainingBalanceUSD` equals the sum of UNPAID sub-totals"
is violated by the code: after creating invoice `"i1"` and a linked UNPAID
reservation of 100 (balance correctly 100), updating the reservation to PAID
through the extended client leaves `remainingBalanceUSD` at 100 although the
sum of UNPAID sub-totals is now 0 — the hook re-reads the reservation only
after the update, so the status comparison never detects the change and no
recomputation runs. -/
theorem C1_balance_invariant_violated :
    c1Trace.isOk = true ∧
    (c1Trace.state.invoices.find? (fun i => i.id == "i1")).map (·.remainingBalanceUSD)
      = some (some 100) ∧
    unpaidSubTotalSum c1Trace.state "i1" = 0 := by decide

/-! ## Claim C4: reservation-update hook recomputation triggers -/

def c4DB : DB :=
  { invoices := [{ id := "inv1", invoiceNumber := "001220",
                   totalUSD := some 100, remainingBalanceUSD := some 100 }],
    reservations := [{ id := "r1", subTotalUSD := 100, paymentStatus := .UNPAID,
                       invoiceId := some "inv1" }] }

/-- C4: updating reservation `"r1"` (UNPAID, linked to invoice `"inv1"`) to
PAID through the extended client succeeds and changes the stored status, yet
the invoice list — and in particular `"inv1"`'s totals — is left byte-for-byte
unchanged: the invoice the reservation was associated with before the change
is NOT recomputed (a recomputation would have set `remainingBalanceUSD` to 0). -/
theorem C4_payment_status_change_triggers_no_recompute :
    (xReservationUpdate c4DB "r1" { paymentStatus := some .PAID }).isOk = true ∧
    (xReservationUpdate c4DB "r1" { paymentStatus := some .PAID }).state.invoices
      = c4DB.invoices ∧
    ((xReservationUpdate c4DB "r1" { paymentStatus := some .PAID }).state.reservations.find?
        (fun r => r.id == "r1")).map (·.paymentStatus) = some PaymentStatus.PAID ∧
    unpaidSubTotalSum (xReservationUpdate c4DB "r1" { paymentStatus := some .PAID }).state "inv1"
      = 0 := by decide

/-! ## Claim C2: what one call of `updateInvoiceTotal` computes and persists -/

/-- A call of the current `updateInvoiceTotal` on an id matching a record
succeeds and writes exactly the two spec-side sums onto that record. -/
theorem updateInvoiceTotal_ok (db : DB) (invId : String)
    (h : (db.invoices.find? (fun i => i.id == invId)).isSome) :
    updateInvoiceTotal db invId = .ok () { db with invoices :=
      (db.invoices.map (fun i => if i.id == invId then
        { i with totalUSD := some (nonCancelledSubTotalSum db invId),
                 remainingBalanceUSD := some (unpaidSubTotalSum db invId) } else i)) } := by
  unfold updateInvoiceTotal updateInvoiceRecord
  simp only [aggOutstandingReservations, aggOutstandingOrders, aggTotalReservations,
    aggTotalOrders, decimalAddOpt_aggregateSum, zero_add, h, if_true,
    nonCancelledSubTotalSum, unpaidSubTotalSum]

/-- C2: for every invoice id that matches a record, one call of the current
`updateInvoiceTotal` succeeds and produces exactly the state in which that
invoice's `remainingBalanceUSD` is the sum of `subTotalUSD` over its UNPAID
reservations plus its UNPAID orders (absent aggregates contributing zero),
its `totalUSD` is the sum over its non-CANCELLED reservations plus its
non-CANCELLED orders, and nothing else changed. -/
theorem C2_updateInvoiceTotal_computes_and_persists (db : DB) (invId : String)
    (h : (db.invoices.find? (fun i => i.id == invId)).isSome) :
    updateInvoiceTotal db invId = .ok () { db with invoices :=
      (db.invoices.map (fun i => if i.id == invId then
        { i with totalUSD := some (nonCancelledSubTotalSum db invId),
                 remainingBalanceUSD := some (unpaidSubTotalSum db invId) } else i)) } :=
  updateInvoiceTotal_ok db invId h

/-- Witness for C2 at a concrete database. -/
theorem C2_witness :
    ((c4DB.invoices.find? (fun i => i.id == "inv1")).isSome = true) ∧
    updateInvoiceTotal c4DB "inv1" = .ok () { c4DB with invoices :=
      (c4DB.invoices.map (fun i => if i.id == "inv1" then
        { i with totalUSD := some (nonCancelledSubTotalSum c4DB "inv1"),
                 remainingBalanceUSD := some (unpaidSubTotalSum c4DB "inv1") } else i)) } :=
  ⟨by decide, C2_updateInvoiceTotal_computes_and_persists c4DB "inv1" (by decide)⟩

/-! ## Claim C3: the first-revision recomputation rejects the no-records case -/

/-- C3: the first revision of `updateInvoiceTotal` (db.ts lines 146–260, the
lines this claim cites) fails with `Error("failed to aggregate totals")` —
rather than treating the case as a valid zero state — whenever the invoice has
no related reservation and no related order, i.e. when both aggregates of a
step are simultaneously absent; no write is performed. -/
theorem C3_rev1_errors_when_both_aggregates_absent (db : DB) (invId : String)
    (hr : ∀ r ∈ db.reservations, r.invoiceId ≠ some invId)
    (ho : ∀ o ∈ db.orders, o.invoiceId ≠ some invId) :
    Rev1.updateInvoiceTotal db invId = .err (.jsError "failed to aggregate totals") db := by
  have hres : aggOutstandingReservations db invId = none := by
    unfold aggOutstandingReservations
    rw [aggregateSum_eq_none_iff, List.map_eq_nil_iff, List.filter_eq_nil_iff]
    intro r hrr
    simp only [Bool.and_eq_true, beq_iff_eq, not_and]
    intro h1
    exact absurd h1 (hr r hrr)
  have hord : aggOutstandingOrders db invId = none := by
    unfold aggOutstandingOrders
    rw [aggregateSum_eq_none_iff, List.map_eq_nil_iff, List.filter_eq_nil_iff]
    intro o hoo
    simp only [Bool.and_eq_true, beq_iff_eq, not_and]
    intro h1
    exact absurd h1 (ho o hoo)
  unfold Rev1.updateInvoiceTotal
  rw [hres, hord]
  rfl

/-- Witness for C3: an empty store. -/
theorem C3_witness :
    (∀ r ∈ (({} : DB)).reservations, r.invoiceId ≠ some "x") ∧
    (∀ o ∈ (({} : DB)).orders, o.invoiceId ≠ some "x") ∧
    Rev1.updateInvoiceTotal {} "x" = .err (.jsError "failed to aggregate totals") {} :=
  ⟨by decide, by decide,
    C3_rev1_errors_when_both_aggregates_absent {} "x" (by decide) (by decide)⟩

/-! ## Claim C10: a non-CANCELLED invoice update through the hook writes nothing -/

/-- C10: whenever the update payload's `status` is anything other than
CANCELLED — in particular for every `updateStatus` call with PAID or UNPAID —
the extended client's `invoice.update` hook performs no write at all: the
state is returned unchanged (invoice, reservations and orders included) and no
updated record (`undefined`) is returned. -/
theorem C10_non_cancelled_update_is_noop :
    (∀ (db : DB) (whereId : String) (data : InvoiceUpdateData),
        data.status ≠ some PaymentStatus.CANCELLED →
        xInvoiceUpdate db whereId data = .ok none db) ∧
    (∀ (db : DB) (id : String) (st : PaymentStatus), st ≠ PaymentStatus.CANCELLED →
        invoiceRouterUpdateStatus db id st = .ok none db) := by
  have main : ∀ (db : DB) (whereId : String) (data : InvoiceUpdateData),
      data.status ≠ some PaymentStatus.CANCELLED →
      xInvoiceUpdate db whereId data = .ok none db := by
    intro db whereId data h
    unfold xInvoiceUpdate
    rcases hs : data.status with _ | ps
    · rfl
    · cases ps with
      | PAID => rfl
      | UNPAID => rfl
      | CANCELLED => exact absurd hs h
  refine ⟨main, fun db id st h => main db id _ ?_⟩
  simpa using h

/-- Witness for C10 on a concrete store and both entry points. -/
theorem C10_witness :
    xInvoiceUpdate c4DB "inv1" { status := some .PAID } = .ok none c4DB ∧
    invoiceRouterUpdateStatus c4DB "inv1" .UNPAID = .ok none c4DB :=
  ⟨C10_non_cancelled_update_is_noop.1 c4DB "inv1" { status := some .PAID } (by decide),
   C10_non_cancelled_update_is_noop.2 c4DB "inv1" .UNPAID (by decide)⟩

/-! ## Claim C5: invoice-number generation -/

def c5DB : DB :=
  { invoices := [{ id := "i1", invoiceNumber := "009000", status := .CANCELLED },
                 { id := "i2", invoiceNumber := "001220", status := .UNPAID }] }

/-- C5 counterexample: the claim says every generation path queries the most
recent number WITHIN the requested sequence; the check-in path (part_001
lines 225–241) has no status filter at all.  On a store holding a cancelled
invoice 009000 and an active invoice 001220, the check-in path produces
009001 (successor of the unfiltered maximum, which is a cancelled-sequence
number), not the 001221 a within-sequence query would give. -/
theorem C5_checkin_generation_is_unfiltered :
    checkInInvoiceNumber c5DB = "009001" ∧
    checkInInvoiceNumberClaimed c5DB = "001221" ∧
    checkInInvoiceNumber c5DB ≠ checkInInvoiceNumberClaimed c5DB := by decide

/-- C5 (amended): the manual-creation path queries the most recent number with
status not CANCELLED (base 1220), the cancelled path the most recent with
status CANCELLED (base 9000); the check-in path queries the most recent number
over ALL invoices with no sequence filter (base 2000 only when no invoice at
all exists).  Each found number is parsed as an integer and incremented; the
result is rendered as a 6-digit zero-padded decimal string (for values below
10^6). -/
theorem C5_number_generation_characterized :
    (∀ (db : DB) (inv : Invoice) (m : Nat),
        latestByInvoiceNumber (db.invoices.filter (fun i => !(i.status == .CANCELLED)))
          = some inv →
        parseInt10 inv.invoiceNumber = some m →
        nextManualInvoiceNumber db = pad6 (m + 1)) ∧
    (∀ db : DB,
        latestByInvoiceNumber (db.invoices.filter (fun i => !(i.status == .CANCELLED))) = none →
        nextManualInvoiceNumber db = pad6 1220) ∧
    (∀ (db : DB) (inv : Invoice) (m : Nat),
        latestByInvoiceNumber (db.invoices.filter (fun i => i.status == .CANCELLED)) = some inv →
        parseInt10 inv.invoiceNumber = some m →
        generateCancelledInvoiceNumber db = pad6 (m + 1)) ∧
    (∀ db : DB,
        latestByInvoiceNumber (db.invoices.filter (fun i => i.status == .CANCELLED)) = none →
        generateCancelledInvoiceNumber db = pad6 9000) ∧
    (∀ (db : DB) (inv : Invoice) (m : Nat),
        latestByInvoiceNumber db.invoices = some inv →
        parseInt10 inv.invoiceNumber = some m →
        checkInInvoiceNumber db = pad6 (m + 1)) ∧
    (∀ db : DB, db.invoices = [] → checkInInvoiceNumber db = pad6 2000) ∧
    (∀ n : Nat, n < 10 ^ 6 →
        (pad6 n).data.length = 6 ∧ ∀ c ∈ (pad6 n).data, isDigitChar c = true) := by
  refine ⟨?_, ?_, ?_, ?_, ?_, ?_, ?_⟩
  · intro db inv m hl hp
    unfold nextManualInvoiceNumber
    rw [hl]
    show padStart6 (jsNumToString (jsAdd1 (parseInt10 inv.invoiceNumber))) = pad6 (m + 1)
    rw [hp]
    rfl
  · intro db hl
    unfold nextManualInvoiceNumber
    rw [hl]
    rfl
  · intro db inv m hl hp
    unfold generateCancelledInvoiceNumber
    rw [hl]
    show padStart6 (jsNumToString (jsAdd1 (parseInt10 inv.invoiceNumber))) = pad6 (m + 1)
    rw [hp]
    rfl
  · intro db hl
    unfold generateCancelledInvoiceNumber
    rw [hl]
    rfl
  · intro db inv m hl hp
    unfold checkInInvoiceNumber
    rw [hl]
    show padStart6 (jsNumToString (jsAdd1 (parseInt10 inv.invoiceNumber))) = pad6 (m + 1)
    rw [hp]
    rfl
  · intro db hl
    unfold checkInInvoiceNumber
    rw [hl]
    rfl
  · intro n hn
    exact ⟨pad6_length hn, pad6_allDigits n⟩

/-- Witness for C5 on concrete stores, one per generation path. -/
theorem C5_witness :
    nextManualInvoiceNumber c5DB = pad6 (1220 + 1) ∧
    generateCancelledInvoiceNumber c5DB = pad6 (9000 + 1) ∧
    checkInInvoiceNumber c5DB = pad6 (9000 + 1) ∧
    checkInInvoiceNumber {} = pad6 2000 :=
  ⟨C5_number_generation_characterized.1 c5DB
      { id := "i2", invoiceNumber := "001220", status := .UNPAID } 1220 (by decide) (by decide),
   C5_number_generation_characterized.2.2.1 c5DB
      { id := "i1", invoiceNumber := "009000", status := .CANCELLED } 9000 (by decide) (by decide),
   C5_number_generation_characterized.2.2.2.2.1 c5DB
      { id := "i1", invoiceNumber := "009000", status := .CANCELLED } 9000 (by decide) (by decide),
   C5_number_generation_characterized.2.2.2.2.2.1 {} rfl⟩

/-! ## Claim C8: `calculateSubTotal` -/

/-- C8: given an existing reservation whose room carries a daily rate, the
operation sets the reservation's sub-total to rate × (calendar-day difference
of the given check-out and check-in), transitions its status to FINAL_BILL,
and persists exactly that; given a reservation id matching no record, it
fails with `Error("Reservation not found")` and writes nothing. -/
theorem C8_calculate_sub_total_correct :
    (∀ (db : DB) (inp : CalculateSubTotalInput) (r : Reservation) (rid : String) (room : Room)
        (d : Int),
        db.reservations.find? (fun x => x.id == inp.reservationId) = some r →
        r.roomId = some rid →
        db.rooms.find? (fun rm => rm.id == rid) = some room →
        room.dailyRateUSD = some d →
        calculateSubTotal db inp = .ok
          { r with subTotalUSD := d * (inp.checkOut - inp.checkIn),
                   status := .FINAL_BILL }
          { db with reservations :=
            (db.reservations.map (fun x =>
              if x.id == inp.reservationId then
                { r with subTotalUSD := d * (inp.checkOut - inp.checkIn),
                         status := .FINAL_BILL }
              else x)) }) ∧
    (∀ (db : DB) (inp : CalculateSubTotalInput),
        db.reservations.find? (fun x => x.id == inp.reservationId) = none →
        calculateSubTotal db inp = .err (.jsError "Reservation not found") db) := by
  constructor
  · intro db inp r rid room d hfind hroomId hroom hrate
    unfold calculateSubTotal
    rw [hfind]
    simp [hroomId, hroom, hrate]
  · intro db inp h
    unfold calculateSubTotal
    rw [h]

/-- Witness for C8: rate 100, check-in day 0 (2024-01-01), check-out day 3
(2024-01-04) yields a sub-total of 300, matching the claim's example. -/
theorem C8_witness :
    calculateSubTotal
      { rooms := [{ id := "rm1", dailyRateUSD := some 100 }],
        reservations := [{ id := "r1", roomId := some "rm1" }] }
      { reservationId := "r1", checkIn := 0, checkOut := 3 }
    = .ok { id := "r1", roomId := some "rm1", subTotalUSD := 100 * (3 - 0),
            status := .FINAL_BILL }
        { rooms := [{ id := "rm1", dailyRateUSD := some 100 }],
          reservations := [{ id := "r1", roomId := some "rm1", subTotalUSD := 100 * (3 - 0),
                             status := .FINAL_BILL }] } := by
  have := C8_calculate_sub_total_correct.1
    { rooms := [{ id := "rm1", dailyRateUSD := some 100 }],
      reservations := [{ id := "r1", roomId := some "rm1" }] }
    { reservationId := "r1", checkIn := 0, checkOut := 3 }
    { id := "r1", roomId := some "rm1" } "rm1" { id := "rm1", dailyRateUSD := some 100 } 100
    (by decide) (by decide) (by decide) (by decide)
  simpa using this

/-! ## Claim C9: duplicate guest email on manual invoice creation -/

/-- C9: creating an invoice with no `guestId` and an email equal to an
existing guest's unique email fails with CONFLICT, and the state returned
with the error is the original store itself — no Invoice and no Guest record
was created. -/
theorem C9_duplicate_email_conflict (db : DB) (input : NewInvoiceInput)
    (hng : input.guestId = none)
    (hdup : ∃ g ∈ db.guests, g.email = input.email) :
    ∀ (newGuestId newInvoiceId : String) (newReservationIds : List String),
      invoiceRouterCreate db input newGuestId newInvoiceId newReservationIds
        = .err (.trpc .CONFLICT
            "A Guest account with this Email already exists. Please choose the existing guest and try again.")
            db := by
  intro gid iid rids
  have hany : db.guests.any (fun g => g.email == input.email) = true := by
    rw [List.any_eq_true]
    obtain ⟨g, hg, he⟩ := hdup
    exact ⟨g, hg, by simp [he]⟩
  unfold invoiceRouterCreate
  rw [hng]
  simp only [hany, if_true]

/-- Witness for C9: a store with guest email `"a@b"` and a creation request
reusing it. -/
theorem C9_witness :
    (({ guests := [{ id := "g0", email := "a@b" }] } : DB)).guests.any
        (fun g => g.email == "a@b") = true ∧
    invoiceRouterCreate { guests := [{ id := "g0", email := "a@b" }] }
        { firstName := "X", surname := "Y", email := "a@b" } "g1" "i1" []
      = .err (.trpc .CONFLICT
          "A Guest account with this Email already exists. Please choose the existing guest and try again.")
          { guests := [{ id := "g0", email := "a@b" }] } :=
  ⟨by decide,
   C9_duplicate_email_conflict { guests := [{ id := "g0", email := "a@b" }] }
      { firstName := "X", surname := "Y", email := "a@b" } rfl
      ⟨{ id := "g0", email := "a@b" }, by decide, rfl⟩ "g1" "i1" []⟩

/-! ## Claim C7: check-in -/

theorem prismaInvoiceCreate_state_reservationItems (db : DB) (d : InvoiceCreateData) :
    (prismaInvoiceCreate db d).state.reservationItems = db.reservationItems := by
  unfold prismaInvoiceCreate
  dsimp only
  split <;> rfl

theorem prismaInvoiceCreate_reservationItems (db : DB) (d : InvoiceCreateData) :
    ∀ {inv : Invoice} {db2 : DB}, prismaInvoiceCreate db d = .ok inv db2 →
      db2.reservationItems = db.reservationItems := by
  intro inv db2 h
  have hs := prismaInvoiceCreate_state_reservationItems db d
  rw [h] at hs
  exact hs

/-- What a successful `prisma.invoice.create` returns and writes. -/
theorem prismaInvoiceCreate_ok (db : DB) (d : InvoiceCreateData)
    (h : ((match d.guestConnectId with
           | some gid => (db.guests.find? (fun g => g.id == gid)).isSome
           | none => true) &&
          (match d.reservationConnectId with
           | some rid => (db.reservations.find? (fun r => r.id == rid)).isSome
           | none => true)) = true) :
    prismaInvoiceCreate db d = .ok
      { id := d.id, invoiceNumber := d.invoiceNumber, customerName := d.customerName,
        customerEmail := d.customerEmail, guestId := d.guestConnectId }
      { db with
        invoices := (db.invoices ++
          [{ id := d.id, invoiceNumber := d.invoiceNumber, customerName := d.customerName,
             customerEmail := d.customerEmail, guestId := d.guestConnectId }]),
        reservations := ((match d.reservationConnectId with
          | some rid =>
            db.reservations.map
              (fun r => if r.id == rid then { r with invoiceId := some d.id } else r)
          | none => db.reservations) ++
          d.reservationsCreateMany.map (fun n =>
            { id := n.id, reservationItemId := n.reservationItemId, guestId := n.guestId,
              checkIn := n.checkIn, checkOut := n.checkOut, status := n.status,
              firstName := n.firstName, surname := n.surname, email := n.email,
              subTotalUSD := n.subTotalUSD, invoiceId := some d.id })) } := by
  unfold prismaInvoiceCreate
  dsimp only
  rw [if_pos h]

/-- Happy path of `reservationsRouter.checkIn`. -/
theorem checkIn_happy_path (db : DB) (input : CheckInInput) (gid iid : String)
    (r0 : Reservation) (riid : String) (ri : ReservationItem) (room : Room)
    (hfind : db.reservations.find? (fun r => r.id == input.reservationId) = some r0)
    (_hconf : r0.status = .CONFIRMED)
    (hemail : ∀ g ∈ db.guests, g.email ≠ input.guestEmail)
    (hroom : db.rooms.find? (fun rm => rm.id == input.roomId) = some room)
    (hriid : r0.reservationItemId = some riid)
    (hri : db.reservationItems.find? (fun x => x.id == riid) = some ri) :
    ∃ dbF : DB,
      reservationsCheckIn db input gid iid
        = .ok
            { r0 with status := .CHECKED_IN, guestId := some gid,
                      roomId := some input.roomId }
            dbF ∧
      dbF.reservations.find? (fun r => r.id == input.reservationId)
        = some
            { r0 with status := .CHECKED_IN, guestId := some gid,
                      roomId := some input.roomId, invoiceId := some iid } ∧
      dbF.rooms.find? (fun rm => rm.id == input.roomId) = some { room with status := .OCCUPIED } ∧
      dbF.guests = db.guests ++
        [{ id := gid, firstName := input.firstName, surname := input.surname,
           email := input.guestEmail, currentReservationId := some input.reservationId }] ∧
      dbF.invoices = db.invoices ++
        [{ id := iid, invoiceNumber := checkInInvoiceNumber db,
           customerName := input.firstName, customerEmail := input.guestEmail,
           guestId := some gid }] := by
  have hr0id : r0.id = input.reservationId := by
    have := List.find?_some hfind
    simpa using this
  have hany : db.guests.any (fun g => g.email == input.guestEmail) = false := by
    rw [List.any_eq_false]
    intro g hg
    simp only [beq_iff_eq]
    exact hemail g hg
  unfold reservationsCheckIn
  rw [hfind]
  simp only [hany, Bool.false_eq_true, if_false, hroom]
  rw [hriid]
  have hbind : (some riid).bind (fun a => List.find? (fun x => x.id == a) db.reservationItems)
      = some ri := hri
  rw [hbind]
  rw [hr0id]
  rw [prismaInvoiceCreate_ok]
  swap
  · dsimp only
    rw [Bool.and_eq_true]
    refine ⟨find?_append_singleton_isSome _ _ _ (by simp), ?_⟩
    rw [find?_map_const' db.reservations _ _ r0 hfind (by simp)]
    rfl
  refine ⟨_, rfl, ?_, ?_, ?_, ?_⟩
  · dsimp only
    simp only [List.map_nil, List.append_nil]
    rw [find?_map_update _ (fun r : Reservation => r.id == input.reservationId)
      (fun r => { r with invoiceId := some iid }) (fun a => rfl)]
    rw [find?_map_const' db.reservations _ _ r0 hfind (by simp)]
    rfl
  · dsimp only
    rw [find?_map_update _ (fun rm : Room => rm.id == input.roomId)
      (fun rm => { rm with status := RoomStatus.OCCUPIED }) (fun a => rfl), hroom]
    rfl
  · rfl
  · rfl

/-- Whenever `checkIn` succeeds, the required linkages (guest, room, rate
product) are all present on the post-update reservation. -/
theorem checkIn_success_linkages (db : DB) (input : CheckInInput) (gid iid : String)
    (res : Reservation) (dbF : DB)
    (h : reservationsCheckIn db input gid iid = .ok res dbF) :
    res.guestId.isSome = true ∧ res.roomId = some input.roomId ∧
    (res.reservationItemId.bind
      (fun riid => dbF.reservationItems.find? (fun x => x.id == riid))).isSome = true := by
  unfold reservationsCheckIn at h
  split at h
  · simp at h
  · split at h
    · simp at h
    · split at h
      · simp at h
      · dsimp only at h
        split at h
        · simp at h
        · rename_i resItem hresItem
          split at h
          · simp at h
          · rename_i inv db2 hcreate
            cases h
            refine ⟨rfl, rfl, ?_⟩
            rw [prismaInvoiceCreate_reservationItems _ _ hcreate]
            dsimp only
            rw [hresItem]
            rfl

/-- C7: checking in a CONFIRMED reservation with a valid room and rate
product transitions it to CHECKED_IN, creates a Guest attached to the
reservation, attaches the room and marks it OCCUPIED, and creates exactly one
new Invoice carrying the fresh sequential check-in number, linked to the
reservation and the guest; and whenever check-in returns successfully, the
required linkages (guest, room, rate product) are all present on the
post-update reservation — equivalently, it fails whenever one of them is
missing after the update (the guest and rate-product checks surface as
unprocessable-state errors; a missing room makes the update itself throw). -/
theorem C7_check_in_correct :
    (∀ (db : DB) (input : CheckInInput) (gid iid : String) (r0 : Reservation)
        (riid : String) (ri : ReservationItem) (room : Room),
      db.reservations.find? (fun r => r.id == input.reservationId) = some r0 →
      r0.status = .CONFIRMED →
      (∀ g ∈ db.guests, g.email ≠ input.guestEmail) →
      db.rooms.find? (fun rm => rm.id == input.roomId) = some room →
      r0.reservationItemId = some riid →
      db.reservationItems.find? (fun x => x.id == riid) = some ri →
      ∃ dbF : DB,
        reservationsCheckIn db input gid iid
          = .ok
              { r0 with status := .CHECKED_IN, guestId := some gid,
                        roomId := some input.roomId }
              dbF ∧
        dbF.reservations.find? (fun r => r.id == input.reservationId)
          = some
              { r0 with status := .CHECKED_IN, guestId := some gid,
                        roomId := some input.roomId, invoiceId := some iid } ∧
        dbF.rooms.find? (fun rm => rm.id == input.roomId)
          = some { room with status := .OCCUPIED } ∧
        dbF.guests = db.guests ++
          [{ id := gid, firstName := input.firstName, surname := input.surname,
             email := input.guestEmail, currentReservationId := some input.reservationId }] ∧
        dbF.invoices = db.invoices ++
          [{ id := iid, invoiceNumber := checkInInvoiceNumber db,
             customerName := input.firstName, customerEmail := input.guestEmail,
             guestId := some gid }]) ∧
    (∀ (db : DB) (input : CheckInInput) (gid iid : String) (res : Reservation) (dbF : DB),
      reservationsCheckIn db input gid iid = .ok res dbF →
      res.guestId.isSome = true ∧ res.roomId = some input.roomId ∧
      (res.reservationItemId.bind
        (fun riid => dbF.reservationItems.find? (fun x => x.id == riid))).isSome = true) :=
  ⟨checkIn_happy_path, checkIn_success_linkages⟩

def dbC7 : DB :=
  { rooms := [{ id := "rm1" }], reservationItems := [{ id := "ri1" }],
    reservations := [{ id := "r1", reservationItemId := some "ri1" }] }

def inC7 : CheckInInput :=
  { reservationId := "r1", firstName := "F", surname := "S", guestEmail := "f@s.t",
    roomId := "rm1" }

def r0C7 : Reservation := { id := "r1", reservationItemId := some "ri1" }

/-- Witness for C7 on a concrete store. -/
theorem C7_witness :
    (dbC7.reservations.find? (fun r => r.id == inC7.reservationId) = some r0C7 ∧
     r0C7.status = .CONFIRMED ∧
     dbC7.rooms.find? (fun rm => rm.id == inC7.roomId) = some { id := "rm1" }) ∧
    ∃ dbF : DB,
      reservationsCheckIn dbC7 inC7 "g1" "i1"
        = .ok
            { r0C7 with status := .CHECKED_IN, guestId := some "g1",
                        roomId := some inC7.roomId }
            dbF :=
  ⟨⟨by decide, by decide, by decide⟩,
   (C7_check_in_correct.1 dbC7 inC7 "g1" "i1" r0C7 "ri1" { id := "ri1" } { id := "rm1" }
      (by decide) (by decide) (by decide) (by decide) (by decide) (by decide)).imp
     (fun dbF h => h.1)⟩

/-! ## Claim C6: invoice-number sequences -/

end BirdsDemo
